import Mathlib

/-!
Shallow embedding of `slimwrap` (src/slimwrap/python/slimwrap.py): the
`SLiMModel` handle, its `run` operation (seed resolution, parameter staging
through a JSON side-channel file, subprocess command assembly, cleanup) and
the value encoder `parse_key_value` exercised by the test suite.

Python runtime values are embedded as an inductive `PyVal`; numpy arrays carry
their dimensionality explicitly.  External effects (the numpy random draw, the
subprocess outcome, temp-file naming, `os.remove` success) are supplied by an
`Env` oracle, and the file-system and process side effects of `run` are
recorded as an ordered `Event` trace so claims about ordering and cleanup are
statable.
-/

namespace Slimwrap

/-- A Python float, embedded as a rendered decimal: sign, integer part and the
list of fractional digits.  `render` matches Python's `str` on the literals the
repository uses (e.g. `1.2`, `1.0`); `trunc` is `int()`'s truncation toward
zero. -/
structure PyFloat where
  neg : Bool
  ip : Nat
  frac : List Nat
deriving Repr, DecidableEq

def PyFloat.render (f : PyFloat) : String :=
  (if f.neg then "-" else "") ++ toString f.ip ++ "." ++ String.join (f.frac.map toString)

def PyFloat.trunc (f : PyFloat) : Int :=
  if f.neg then -(f.ip : Int) else (f.ip : Int)

/-- A scalar Python value of the kinds the encoder supports. -/
inductive Scalar where
  | str (s : String)
  | bool (b : Bool)
  | int (n : Int)
  | float (f : PyFloat)
deriving Repr, DecidableEq

def Scalar.isStr : Scalar → Bool
  | .str _ => true
  | _ => false

def Scalar.isBool : Scalar → Bool
  | .bool _ => true
  | _ => false

/-- Python's `isinstance(v, int)`: booleans are also integers in the host
language, which is why the encoder must test booleans first. -/
def Scalar.isIntLike : Scalar → Bool
  | .int _ => true
  | .bool _ => true
  | _ => false

/-- The literal token for one scalar in the target (Eidos) syntax: quoted
string, `T`/`F`, decimal integer, decimal float. -/
def Scalar.literal : Scalar → String
  | .str s => "'" ++ s ++ "'"
  | .bool b => if b then "T" else "F"
  | .int n => toString n
  | .float f => f.render

/-- Runtime type dispatch picking the constructor tag, in the source's check
order: string, then boolean, then integer-like, else float.  The boolean test
precedes the integer test although booleans also satisfy `isIntLike`. -/
def scalarCtor (v : Scalar) : String :=
  if v.isStr then "asString"
  else if v.isBool then "asLogical"
  else if v.isIntLike then "asInteger"
  else "asFloat"

/-- A numpy array: 1-D, 2-D (list of rows, row-major) or higher-dimensional
(`dHi extra flat` has dimensionality `3 + extra`; only its dimensionality and
its row-major flattening matter to the code). -/
inductive NDArr where
  | d1 (xs : List Scalar)
  | d2 (rows : List (List Scalar))
  | dHi (extra : Nat) (flat : List Scalar)
deriving Repr, DecidableEq

def NDArr.ndim : NDArr → Nat
  | .d1 _ => 1
  | .d2 _ => 2
  | .dHi n _ => 3 + n

/-- `value.flatten().tolist()`: the row-major flattening of the array. -/
def NDArr.flatten : NDArr → List Scalar
  | .d1 xs => xs
  | .d2 rows => rows.flatten
  | .dHi _ f => f

/-- `value.shape[0]` of a 2-D array. -/
def NDArr.nrow : NDArr → Nat
  | .d2 rows => rows.length
  | _ => 0

/-- `value.shape[1]` of a 2-D array (numpy arrays are rectangular). -/
def NDArr.ncol : NDArr → Nat
  | .d2 rows => (rows.headD []).length
  | _ => 0

/-- A Python value a constants mapping may hold: a scalar, a plain list, or a
numpy array. -/
inductive PyVal where
  | scalar (s : Scalar)
  | pylist (xs : List Scalar)
  | arr (a : NDArr)
deriving Repr, DecidableEq

def PyVal.isNdarray : PyVal → Bool
  | .arr _ => true
  | _ => false

def joinLits (xs : List Scalar) : String :=
  String.intercalate "," (xs.map Scalar.literal)

/-- Constructor tag for a homogeneous sequence: the tag of its first element. -/
def seqCtor (xs : List Scalar) : String :=
  scalarCtor (xs.headD (.int 0))

/-- Modelled from the spec: the encoder `parse_key_value` is imported by
`test_slimwrap.py` but its definition is not among the repository's source
files.  This follows the Value Encoder rules of spec section 4.1: string →
quoted-string constructor `asString`, boolean (checked before numeric
classification) → `asLogical` over `T`/`F`, integer → `asInteger`, float →
`asFloat`; a homogeneous 1-D sequence gets the same constructor applied to a
comma-joined literal list with no surrounding whitespace; a 2-D rectangular
array is flattened row-major, wrapped in the element constructor, then in
`matrix(..., nrow=r, ncol=c, byrow=T)`; any other structure is an encoding
error naming the offending key. -/
def parse_key_value (key : String) (v : PyVal) : Except String String :=
  match v with
  | .scalar s => .ok (key ++ "=" ++ scalarCtor s ++ "(c(" ++ s.literal ++ "))")
  | .pylist xs => .ok (key ++ "=" ++ seqCtor xs ++ "(c(" ++ joinLits xs ++ "))")
  | .arr (.d1 xs) => .ok (key ++ "=" ++ seqCtor xs ++ "(c(" ++ joinLits xs ++ "))")
  | .arr (.d2 rows) =>
      .ok (key ++ "=matrix(" ++ seqCtor rows.flatten ++ "(c(" ++ joinLits rows.flatten
        ++ ")), nrow=" ++ toString rows.length ++ ", ncol="
        ++ toString (rows.headD []).length ++ ", byrow=T)")
  | .arr (.dHi _ _) => .error ("Unsupported array for key '" ++ key ++ "'")

/-! ## The `SLiMModel` handle and `run` -/

/-- A captured subprocess outcome (`subprocess.CompletedProcess`): return
code, stdout, stderr. -/
structure ProcResult where
  returncode : Int
  stdout : String
  stderr : String
deriving Repr, DecidableEq

/-- The external-effect oracle for one `run` call: the raw value behind
`np.random.randint`, the outcome of the subprocess, the name `tempfile` gives
the parameter file, and whether `os.remove` on it succeeds. -/
structure Env where
  raw : Nat
  proc : ProcResult
  paramPath : String
  removeOk : Bool
deriving Repr, DecidableEq

/-- `np.random.randint(lo, hi)`: a uniform draw from `[lo, hi)`, modelled as
reducing the oracle's raw entropy modulo the range size. -/
def nprandint (lo hi raw : Nat) : Nat :=
  lo + raw % (hi - lo)

/-- The state of a `SLiMModel` object: its temp-file path and the
`last_result` / `last_seed` attributes. -/
structure Handle where
  tempFilepath : String
  lastResult : Option ProcResult
  lastSeed : Option Int
deriving Repr, DecidableEq

/-- The errors `SLiMModel.run` can raise. -/
inductive RunError where
  | typeErrorConstants
  | valueErrorSeed
  | valueErrorNdim (key : String)
  | calledProcessError (r : ProcResult)
deriving Repr, DecidableEq

/-- The observable file-system and process side effects of one `run` call, in
order of occurrence. -/
inductive Event where
  | createParamFile (path : String)
  | writePayload (payload : List (String × PyVal))
  | launchSubprocess (argv : List String)
  | removeParamFile (path : String)
  | warnRemoveFailed (path : String)
deriving Repr, DecidableEq

/-- Digit-string parsing, most significant digit first. -/
def parseDigits : List Char → Nat → Option Nat
  | [], acc => some acc
  | c :: cs, acc =>
      if c.isDigit then parseDigits cs (acc * 10 + (c.toNat - 48)) else none

/-- `int(s)` on a string: an optional minus sign followed by at least one
decimal digit; anything else (e.g. a non-numeric string) raises. -/
def pyIntOfString (s : String) : Option Int :=
  match s.data with
  | [] => none
  | '-' :: cs =>
      if cs.isEmpty then none
      else (parseDigits cs 0).map (fun n => -(n : Int))
  | cs => (parseDigits cs 0).map (fun n => (n : Int))

/-- Python's `int(v)` on the scalars a caller may pass as `seed`: integers
unchanged, booleans as 0/1, floats truncated toward zero, strings parsed as
integer literals; failure (e.g. a non-numeric string) is `none`. -/
def pyInt : Scalar → Option Int
  | .int n => some n
  | .bool b => some (if b then 1 else 0)
  | .float f => some f.trunc
  | .str s => pyIntOfString s

/-- The staging loop's state: the caller's `constants` dict and the copy `y`
that the loop mutates. -/
structure StageState where
  constants : List (String × PyVal)
  y : List (String × PyVal)
deriving Repr, DecidableEq

/-- `d[k] = v` on a Python dict: replaces the value at an existing key, in
place, keeping insertion order. -/
def dictSet (d : List (String × PyVal)) (k : String) (v : PyVal) :
    List (String × PyVal) :=
  d.map (fun kv => if kv.1 == k then (k, v) else kv)

/-- The loop `for key, value in y.items(): if isinstance(value, np.ndarray):
y[key] = value.flatten().tolist()`, iterating over the items of the copy and
mutating only the copy. -/
def stageLoop : List (String × PyVal) → StageState → StageState
  | [], st => st
  | (k, v) :: rest, st =>
      stageLoop rest
        (match v with
          | .arr a => { st with y := dictSet st.y k (.pylist a.flatten) }
          | _ => st)

/-- `y = constants.copy()` followed by the flattening loop: builds the JSON
payload dict `y` without touching `constants`. -/
def stage (constants : List (String × PyVal)) : StageState :=
  stageLoop constants { constants := constants, y := constants }

/-- What the staging loop does to one value: numpy arrays become their
row-major flattening as a plain list, everything else is untouched. -/
def flattenVal : PyVal → PyVal
  | .arr a => .pylist a.flatten
  | v => v

/-- The `-d` binding emitted for one constant key: a plain
`SLIM_WRAP_PARAMS.getValue` retrieval for scalars, lists and 1-D arrays, the
`matrix(...)`-wrapped retrieval with the original shape for 2-D arrays, and
the `ValueError` naming the key for any other dimensionality. -/
def bindingFor (k : String) (v : PyVal) : Except RunError (List String) :=
  match v with
  | .arr a =>
      if a.ndim == 1 then
        .ok ["-d", k ++ "=SLIM_WRAP_PARAMS.getValue('" ++ k ++ "');"]
      else if a.ndim == 2 then
        .ok ["-d", k ++ "=matrix(SLIM_WRAP_PARAMS.getValue('" ++ k ++ "'), nrow="
          ++ toString a.nrow ++ ", ncol=" ++ toString a.ncol ++ ", byrow=T);"]
      else
        .error (.valueErrorNdim k)
  | _ => .ok ["-d", k ++ "=SLIM_WRAP_PARAMS.getValue('" ++ k ++ "');"]

/-- The per-key binding loop over `constants.keys()`, stopping at the first
unsupported dimensionality. -/
def emitBindings : List (String × PyVal) → Except RunError (List String)
  | [] => .ok []
  | (k, v) :: rest => do
      let b ← bindingFor k v
      let bs ← emitBindings rest
      pure (b ++ bs)

/-- The binding that defines the reserved `SLIM_WRAP_PARAMS` dictionary by
reading the side-channel payload file. -/
def dictBinding (paramPath : String) : List String :=
  ["-d", "SLIM_WRAP_PARAMS = Dictionary(readFile('" ++ paramPath ++ "'));"]

/-- The tail of `run` from the `try`: launch the subprocess, then in the
`finally` remove the parameter file when constants were staged (a removal
failure only warns); re-raise `CalledProcessError` when `check` is set and the
exit status is non-zero. -/
def finishRun (env : Env) (h : Handle) (argv : List String) (check : Bool)
    (hasParams : Bool) (evs : List Event) :
    Handle × List Event × Except RunError ProcResult :=
  let cleanup : List Event :=
    if hasParams then
      [if env.removeOk then .removeParamFile env.paramPath
       else .warnRemoveFailed env.paramPath]
    else []
  (h, evs ++ [.launchSubprocess argv] ++ cleanup,
   if check && env.proc.returncode != 0 then
     .error (.calledProcessError env.proc)
   else .ok env.proc)

/-- `run` after seed resolution: `commands = ["slim", "-s", seed]`, the
optional staging block (create the temp parameter file, flatten into it,
append the dictionary binding and the per-key bindings — an unsupported
dimensionality raises out of the staging block before the `try`/`finally` is
entered), the model path as last argument, then `finishRun`. -/
def runWithSeed (env : Env) (h : Handle) (sd : Int)
    (cs : List (String × PyVal)) (check : Bool) :
    Handle × List Event × Except RunError ProcResult :=
  let h := { h with lastSeed := some sd }
  let commands := ["slim", "-s", toString sd]
  if cs.isEmpty then
    finishRun env h (commands ++ [h.tempFilepath]) check false []
  else
    let payload := (stage cs).y
    let evs := [Event.createParamFile env.paramPath, Event.writePayload payload]
    let commands := commands ++ dictBinding env.paramPath
    match emitBindings cs with
    | .error e => (h, evs, .error e)
    | .ok binds =>
        finishRun env h (commands ++ binds ++ [h.tempFilepath]) check true evs

/-- `SLiMModel.run(seed, constants, check)`: default the constants, resolve
the seed (a fresh `np.random.randint(1, 2**32)` draw when none is given,
`int(seed)` otherwise, `ValueError` when the coercion raises), then stage and
launch.  Returns the handle state after the call, the event trace and the
result (`last_result` is a local in the source, returned but not stored). -/
def SLiMModel.run (env : Env) (h : Handle) (seed : Option Scalar)
    (constants : Option (List (String × PyVal))) (check : Bool) :
    Handle × List Event × Except RunError ProcResult :=
  let cs := constants.getD []
  match seed with
  | none => runWithSeed env h (Int.ofNat (nprandint 1 (2 ^ 32) env.raw)) cs check
  | some s =>
      match pyInt s with
      | none => (h, [], .error .valueErrorSeed)
      | some n => runWithSeed env h n cs check

/-! ## `SLiMModel.__init__` -/

/-- The effect oracle for construction: the name `tempfile` gives the model
file, the text read from a `model_source` path, and the outcome of the
`slim -c` validation subprocess. -/
structure InitEnv where
  modelPath : String
  sourceText : String
  checkExit : Int
  checkStderr : String
deriving Repr, DecidableEq

/-- The errors `SLiMModel.__init__` can raise. -/
inductive InitError where
  | typeErrorBoth
  | typeErrorNeither
  | validationError (msg : String)
deriving Repr, DecidableEq

/-- The observable side effects of construction, in order. -/
inductive InitEvent where
  | createModelTempFile (path : String)
  | writeModelText (text : String)
  | checkScript (path : String)
deriving Repr, DecidableEq

/-- `SLiMModel.__init__(model_source, model_code)`: both or neither given is a
`TypeError` raised before the temp file is created; otherwise the text is
written to a fresh temp file, `check_slim_script` validates it (`ValueError`
carrying the validator's stderr on non-zero exit), and `last_result` is
initialised to `None`. -/
def SLiMModel.init (env : InitEnv) (model_source : Option String)
    (model_code : Option String) : List InitEvent × Except InitError Handle :=
  match model_source, model_code with
  | some _, some _ => ([], .error .typeErrorBoth)
  | none, none => ([], .error .typeErrorNeither)
  | _, _ =>
      let text := match model_code with
        | some c => c
        | none => env.sourceText
      let evs := [InitEvent.createModelTempFile env.modelPath,
        InitEvent.writeModelText text, InitEvent.checkScript env.modelPath]
      if env.checkExit == 0 then
        (evs, .ok ⟨env.modelPath, none, none⟩)
      else
        (evs, .error (.validationError
          ("SLiM model check failed:\n" ++ env.checkStderr)))

/-! ## Staging lemmas -/

theorem stageLoop_constants (rest : List (String × PyVal)) (st : StageState) :
    (stageLoop rest st).constants = st.constants := by
  induction rest generalizing st with
  | nil => rfl
  | cons kv rest ih =>
      obtain ⟨k, v⟩ := kv
      cases v <;> simp [stageLoop, ih]

theorem dictSet_not_mem (d : List (String × PyVal)) (k : String) (v : PyVal)
    (hk : ∀ p ∈ d, p.1 ≠ k) : dictSet d k v = d := by
  induction d with
  | nil => rfl
  | cons p d ih =>
      have h1 : p.1 ≠ k := hk p (List.mem_cons_self p d)
      have h2 : ∀ q ∈ d, q.1 ≠ k := fun q hq => hk q (List.mem_cons_of_mem p hq)
      show (if p.1 == k then (k, v) else p) :: dictSet d k v = p :: d
      rw [ih h2, if_neg (by simpa using h1)]

theorem dictSet_cons_ne (y : List (String × PyVal)) (a k : String) (b v : PyVal)
    (hne : a ≠ k) : dictSet ((a, b) :: y) k v = (a, b) :: dictSet y k v := by
  simp [dictSet, hne]

theorem stageLoop_cons_skip (rest : List (String × PyVal))
    (c y : List (String × PyVal)) (a : String) (b : PyVal)
    (ha : ∀ p ∈ rest, p.1 ≠ a) :
    (stageLoop rest ⟨c, (a, b) :: y⟩).y = (a, b) :: (stageLoop rest ⟨c, y⟩).y := by
  induction rest generalizing y with
  | nil => rfl
  | cons p rest ih =>
      obtain ⟨k, v⟩ := p
      have hk : k ≠ a := ha (k, v) (List.mem_cons_self _ _)
      have ha' : ∀ q ∈ rest, q.1 ≠ a := fun q hq => ha q (List.mem_cons_of_mem _ hq)
      cases v with
      | arr a0 =>
          show (stageLoop rest ⟨c, dictSet ((a, b) :: y) k (.pylist a0.flatten)⟩).y = _
          rw [dictSet_cons_ne y a k b _ (Ne.symm hk)]
          exact ih (dictSet y k (.pylist a0.flatten)) ha'
      | scalar s => exact ih y ha'
      | pylist xs => exact ih y ha'

theorem stageLoop_self (cs c : List (String × PyVal))
    (hnd : (cs.map Prod.fst).Nodup) :
    (stageLoop cs ⟨c, cs⟩).y = cs.map (fun kv => (kv.1, flattenVal kv.2)) := by
  induction cs with
  | nil => rfl
  | cons p t ih =>
      obtain ⟨k, v⟩ := p
      rw [List.map_cons, List.nodup_cons] at hnd
      obtain ⟨hk0, hnd'⟩ := hnd
      have hk : ∀ q ∈ t, q.1 ≠ k := by
        intro q hq hqk
        exact hk0 (List.mem_map.mpr ⟨q, hq, hqk⟩)
      cases v with
      | arr a0 =>
          show (stageLoop t ⟨c, dictSet ((k, .arr a0) :: t) k (.pylist a0.flatten)⟩).y = _
          rw [show dictSet ((k, .arr a0) :: t) k (.pylist a0.flatten)
               = (k, PyVal.pylist a0.flatten) :: dictSet t k (.pylist a0.flatten) by
             simp [dictSet]]
          rw [dictSet_not_mem t k _ hk]
          rw [stageLoop_cons_skip t c t k _ hk]
          rw [ih hnd']
          rfl
      | scalar s =>
          show (stageLoop t ⟨c, (k, PyVal.scalar s) :: t⟩).y = _
          rw [stageLoop_cons_skip t c t k _ hk, ih hnd']
          rfl
      | pylist xs =>
          show (stageLoop t ⟨c, (k, PyVal.pylist xs) :: t⟩).y = _
          rw [stageLoop_cons_skip t c t k _ hk, ih hnd']
          rfl

/-! ## Run lemmas -/

theorem finishRun_fst (env : Env) (h : Handle) (argv : List String)
    (check : Bool) (hp : Bool) (evs : List Event) :
    (finishRun env h argv check hp evs).1 = h := rfl

theorem runWithSeed_fst (env : Env) (h : Handle) (sd : Int)
    (cs : List (String × PyVal)) (check : Bool) :
    (runWithSeed env h sd cs check).1 = { h with lastSeed := some sd } := by
  unfold runWithSeed
  split
  · exact finishRun_fst _ _ _ _ _ _
  · split
    · rfl
    · exact finishRun_fst _ _ _ _ _ _

/-- The full shape of `runWithSeed` when the constants mapping is non-empty
and every binding encodes: create the parameter file, write the flattened
payload, launch with the assembled command, then exactly one cleanup event;
the result propagates the subprocess failure exactly when `check` is set. -/
theorem runWithSeed_nonempty (env : Env) (h : Handle) (sd : Int)
    (cs : List (String × PyVal)) (check : Bool) (binds : List String)
    (hb : emitBindings cs = .ok binds) (hne : cs ≠ []) :
    runWithSeed env h sd cs check =
      ({ h with lastSeed := some sd },
       [Event.createParamFile env.paramPath, Event.writePayload (stage cs).y,
        Event.launchSubprocess (["slim", "-s", toString sd]
          ++ dictBinding env.paramPath ++ binds ++ [h.tempFilepath]),
        if env.removeOk then Event.removeParamFile env.paramPath
          else Event.warnRemoveFailed env.paramPath],
       if check && env.proc.returncode != 0 then
         Except.error (.calledProcessError env.proc)
       else Except.ok env.proc) := by
  have hE : cs.isEmpty = false := by
    cases cs with
    | nil => exact absurd rfl hne
    | cons a t => rfl
  unfold runWithSeed finishRun
  simp [hE, hb]

theorem runWithSeed_empty (env : Env) (h : Handle) (sd : Int) (check : Bool) :
    runWithSeed env h sd [] check =
      ({ h with lastSeed := some sd },
       [Event.launchSubprocess ["slim", "-s", toString sd, h.tempFilepath]],
       if check && env.proc.returncode != 0 then
         Except.error (.calledProcessError env.proc)
       else Except.ok env.proc) := by
  unfold runWithSeed finishRun
  simp

/-! ## Claim theorems -/

/-- C3: the encoder maps each scalar and 1-D value to the exact
constructor-tagged literal of the concrete scenarios, a 2×2 integer matrix to
the `matrix(...)` form, and tags booleans `asLogical` although they also pass
the integer-likeness test, because the boolean check comes first. -/
theorem parse_key_value_concrete_scenarios :
    parse_key_value "key" (.scalar (.str "val")) = .ok "key=asString(c('val'))"
    ∧ parse_key_value "key" (.scalar (.float ⟨false, 1, [2]⟩)) =
        .ok "key=asFloat(c(1.2))"
    ∧ parse_key_value "key" (.pylist [.int 1, .int 2]) =
        .ok "key=asInteger(c(1,2))"
    ∧ parse_key_value "key" (.scalar (.bool true)) = .ok "key=asLogical(c(T))"
    ∧ parse_key_value "key" (.arr (.d2 [[.int 1, .int 1], [.int 2, .int 2]])) =
        .ok "key=matrix(asInteger(c(1,1,2,2)), nrow=2, ncol=2, byrow=T)"
    ∧ (Scalar.bool true).isIntLike = true
    ∧ scalarCtor (.bool true) = "asLogical" :=
  ⟨rfl, rfl, rfl, rfl, rfl, rfl, rfl⟩

/-- C9: `run` never mutates the caller's constants mapping: the staging step
(`y = constants.copy()` plus the flattening loop, the only place `run` touches
the constants) leaves the `constants` dict exactly as it was, because the
flattening writes only into the copy `y` and `flatten().tolist()` builds fresh
values. -/
theorem run_constants_not_mutated (cs : List (String × PyVal)) :
    (stage cs).constants = cs :=
  stageLoop_constants cs _

/-- C4: for every constants mapping (keys unique, as in a Python dict), the
staged payload keeps exactly the original keys in order, flattens every numpy
array row-major to a plain 1-D list, leaves every non-array value unchanged;
and every 2-D array's emitted binding wraps the dictionary retrieval in
`matrix(...)` with the original row count, original column count and
`byrow=T`. -/
theorem run_payload_and_matrix_bindings (cs : List (String × PyVal))
    (hnd : (cs.map Prod.fst).Nodup) :
    (stage cs).y = cs.map (fun kv => (kv.1, flattenVal kv.2))
    ∧ (∀ rows : List (List Scalar),
        flattenVal (.arr (.d2 rows)) = .pylist rows.flatten)
    ∧ (∀ v : PyVal, v.isNdarray = false → flattenVal v = v)
    ∧ (∀ (k : String) (a : NDArr), a.ndim = 2 →
        bindingFor k (.arr a) =
          .ok ["-d", k ++ "=matrix(SLIM_WRAP_PARAMS.getValue('" ++ k
            ++ "'), nrow=" ++ toString a.nrow ++ ", ncol=" ++ toString a.ncol
            ++ ", byrow=T);"]) := by
  refine ⟨stageLoop_self cs cs hnd, fun rows => rfl, ?_, ?_⟩
  · intro v hv
    cases v with
    | scalar s => rfl
    | pylist xs => rfl
    | arr a => simp [PyVal.isNdarray] at hv
  · intro k a h2
    cases a with
    | d1 xs => simp [NDArr.ndim] at h2
    | d2 rows => rfl
    | dHi n f => simp [NDArr.ndim] at h2; omega

/-- Witness for C4 at a concrete mapping holding a 2×2 matrix and a scalar. -/
theorem run_payload_and_matrix_bindings_witness :
    (stage [("m", .arr (.d2 [[.int 1, .int 1], [.int 2, .int 2]])),
            ("x", .scalar (.int 5))]).y =
      [("m", PyVal.pylist [.int 1, .int 1, .int 2, .int 2]),
       ("x", PyVal.scalar (.int 5))] :=
  (run_payload_and_matrix_bindings
    [("m", .arr (.d2 [[.int 1, .int 1], [.int 2, .int 2]])),
     ("x", .scalar (.int 5))] (by decide)).1

/-- C5: the subprocess command is assembled in fixed order — `slim`, the seed
flag with the resolved seed, then (only for a non-empty constants mapping) the
`SLIM_WRAP_PARAMS`-defining binding followed by one binding per key, and the
model temp file path as the last positional argument; with an empty or absent
mapping no parameter file is created (the trace's only event is the launch)
and no `-d` arguments appear. -/
theorem run_command_assembly (env : Env) (h : Handle) (n : Int)
    (cs : List (String × PyVal)) (check : Bool) (binds : List String)
    (hb : emitBindings cs = .ok binds) (hne : cs ≠ []) :
    (SLiMModel.run env h (some (.int n)) (some cs) check).2.1 =
      [Event.createParamFile env.paramPath, Event.writePayload (stage cs).y,
       Event.launchSubprocess (["slim", "-s", toString n]
         ++ dictBinding env.paramPath ++ binds ++ [h.tempFilepath]),
       if env.removeOk then Event.removeParamFile env.paramPath
         else Event.warnRemoveFailed env.paramPath]
    ∧ (SLiMModel.run env h (some (.int n)) none check).2.1 =
        [Event.launchSubprocess ["slim", "-s", toString n, h.tempFilepath]]
    ∧ (SLiMModel.run env h (some (.int n)) (some []) check).2.1 =
        [Event.launchSubprocess ["slim", "-s", toString n, h.tempFilepath]] := by
  refine ⟨?_, ?_, ?_⟩
  · show (runWithSeed env h n cs check).2.1 = _
    rw [runWithSeed_nonempty env h n cs check binds hb hne]
  · show (runWithSeed env h n [] check).2.1 = _
    rw [runWithSeed_empty]
  · show (runWithSeed env h n [] check).2.1 = _
    rw [runWithSeed_empty]

/-- Witness for C5 at a concrete one-key mapping. -/
theorem run_command_assembly_witness :
    (SLiMModel.run ⟨0, ⟨0, "", ""⟩, "/p", true⟩ ⟨"/m", none, none⟩
        (some (.int 42)) (some [("A", .scalar (.int 1))]) true).2.1 =
      [Event.createParamFile "/p",
       Event.writePayload [("A", PyVal.scalar (.int 1))],
       Event.launchSubprocess ["slim", "-s", "42", "-d",
         "SLIM_WRAP_PARAMS = Dictionary(readFile('/p'));", "-d",
         "A=SLIM_WRAP_PARAMS.getValue('A');", "/m"],
       Event.removeParamFile "/p"] :=
  (run_command_assembly ⟨0, ⟨0, "", ""⟩, "/p", true⟩ ⟨"/m", none, none⟩ 42
    [("A", .scalar (.int 1))] true ["-d", "A=SLIM_WRAP_PARAMS.getValue('A');"]
    rfl (List.cons_ne_nil _ _)).1

/-- C8: once the subprocess is launched with a non-empty constants mapping,
exactly one cleanup step follows it in the trace, whether the run succeeded or
failed: the parameter file is removed when `os.remove` succeeds and only a
warning event is recorded when it fails, while the result component is the
unmasked subprocess outcome — `CalledProcessError` exactly when `check` is set
and the exit status is non-zero, independent of the removal's success. -/
theorem run_cleanup_on_every_exit (env : Env) (h : Handle) (n : Int)
    (cs : List (String × PyVal)) (check : Bool) (binds : List String)
    (hb : emitBindings cs = .ok binds) (hne : cs ≠ []) :
    SLiMModel.run env h (some (.int n)) (some cs) check =
      ({ h with lastSeed := some n },
       [Event.createParamFile env.paramPath, Event.writePayload (stage cs).y,
        Event.launchSubprocess (["slim", "-s", toString n]
          ++ dictBinding env.paramPath ++ binds ++ [h.tempFilepath]),
        if env.removeOk then Event.removeParamFile env.paramPath
          else Event.warnRemoveFailed env.paramPath],
       if check && env.proc.returncode != 0 then
         Except.error (.calledProcessError env.proc)
       else Except.ok env.proc) :=
  runWithSeed_nonempty env h n cs check binds hb hne

/-- Witness for C8: a failing subprocess (`check=True`) together with a
failing removal — the trace ends in the warning event and the
`CalledProcessError` is propagated unmasked. -/
theorem run_cleanup_on_every_exit_witness :
    SLiMModel.run ⟨0, ⟨1, "", "boom"⟩, "/p", false⟩ ⟨"/m", none, none⟩
        (some (.int 7)) (some [("A", .scalar (.int 1))]) true =
      (⟨"/m", none, some 7⟩,
       [Event.createParamFile "/p",
        Event.writePayload [("A", PyVal.scalar (.int 1))],
        Event.launchSubprocess ["slim", "-s", "7", "-d",
          "SLIM_WRAP_PARAMS = Dictionary(readFile('/p'));", "-d",
          "A=SLIM_WRAP_PARAMS.getValue('A');", "/m"],
        Event.warnRemoveFailed "/p"],
       Except.error (.calledProcessError ⟨1, "", "boom"⟩)) :=
  run_cleanup_on_every_exit ⟨0, ⟨1, "", "boom"⟩, "/p", false⟩ ⟨"/m", none, none⟩
    7 [("A", .scalar (.int 1))] true ["-d", "A=SLIM_WRAP_PARAMS.getValue('A');"]
    rfl (List.cons_ne_nil _ _)

/-- C6: with no seed supplied, the resolved seed is `np.random.randint(1,
2**32)` — always in `[1, 2**32 - 1]`, and every value of that range is
attainable — and it is stored as `last_seed`; a supplied seed on which `int()`
raises (e.g. the string "a") makes the call fail with `ValueError` with an
empty effect trace: no subprocess launched, no temporary file created. -/
theorem run_seed_resolution (env : Env) (h : Handle) (s : Scalar)
    (cs : Option (List (String × PyVal))) (check : Bool)
    (hbad : pyInt s = none) :
    (1 ≤ nprandint 1 (2 ^ 32) env.raw ∧ nprandint 1 (2 ^ 32) env.raw ≤ 2 ^ 32 - 1)
    ∧ (∀ t : Nat, 1 ≤ t → t ≤ 2 ^ 32 - 1 →
        ∃ raw, nprandint 1 (2 ^ 32) raw = t)
    ∧ (SLiMModel.run env h none cs check).1.lastSeed =
        some (Int.ofNat (nprandint 1 (2 ^ 32) env.raw))
    ∧ SLiMModel.run env h (some s) cs check = (h, [], .error .valueErrorSeed) := by
  have p32 : (2 : Nat) ^ 32 = 4294967296 := by norm_num
  have hmod : env.raw % (2 ^ 32 - 1) < 2 ^ 32 - 1 :=
    Nat.mod_lt _ (by rw [p32]; omega)
  refine ⟨⟨?_, ?_⟩, ?_, ?_, ?_⟩
  · exact Nat.le_add_right 1 _
  · unfold nprandint
    omega
  · intro t h1 h2
    refine ⟨t - 1, ?_⟩
    unfold nprandint
    rw [Nat.mod_eq_of_lt (by omega)]
    omega
  · show (runWithSeed env h _ (cs.getD []) check).1.lastSeed = _
    rw [runWithSeed_fst]
  · show (match pyInt s with
      | none => (h, ([] : List Event), Except.error RunError.valueErrorSeed)
      | some n => runWithSeed env h n (cs.getD []) check) = _
    rw [hbad]

/-- Witness for C6 at the non-numeric seed "a". -/
theorem run_seed_resolution_witness :
    SLiMModel.run ⟨0, ⟨0, "", ""⟩, "/p", true⟩ ⟨"/m", none, none⟩
        (some (.str "a")) none true =
      (⟨"/m", none, none⟩, [], .error .valueErrorSeed) :=
  (run_seed_resolution ⟨0, ⟨0, "", ""⟩, "/p", true⟩ ⟨"/m", none, none⟩
    (.str "a") none true (by decide)).2.2.2

/-- C7: construction demands exactly one of `model_source` and `model_code`:
both given raises `TypeError`, neither given raises `TypeError`, and in both
cases the effect trace is empty — no temporary file is created and no
validation runs. -/
theorem init_requires_exactly_one_source (env : InitEnv) (src code : String) :
    SLiMModel.init env (some src) (some code) = ([], .error .typeErrorBoth)
    ∧ SLiMModel.init env none none = ([], .error .typeErrorNeither) :=
  ⟨rfl, rfl⟩

/-- C1 — the code contradicts the claim: `__init__` initialises
`last_result = None` and `run` binds the completed process only to a local
variable and returns it, never assigning `self.last_result`; after a
successful run the handle still carries `none`. -/
theorem run_result_not_stored_on_handle :
    (SLiMModel.init ⟨"/m", "", 0, ""⟩ none (some "1 early() x;")).2 =
      .ok ⟨"/m", none, none⟩
    ∧ (SLiMModel.run ⟨7, ⟨0, "out", ""⟩, "/p", true⟩ ⟨"/m", none, none⟩
        (some (.int 1000)) none true).2.2 = .ok ⟨0, "out", ""⟩
    ∧ (SLiMModel.run ⟨7, ⟨0, "out", ""⟩, "/p", true⟩ ⟨"/m", none, none⟩
        (some (.int 1000)) none true).1.lastResult = none :=
  ⟨rfl, rfl, rfl⟩

/-- C2 — the code contradicts the claim: with a 3-D array among the constants,
`run` creates the side-channel file and writes the flattened payload into it
before the dimensionality check runs, and the `ValueError` naming the key
escapes the staging block before the `try`/`finally` cleanup is entered, so
the payload file is left behind (no removal event on this path). -/
theorem run_ndim3_payload_file_leaked :
    SLiMModel.run ⟨0, ⟨0, "", ""⟩, "/p", true⟩ ⟨"/m", none, none⟩
        (some (.int 5)) (some [("k", .arr (.dHi 0 [.int 1, .int 2]))]) true =
      (⟨"/m", none, some 5⟩,
       [Event.createParamFile "/p",
        Event.writePayload [("k", PyVal.pylist [.int 1, .int 2])]],
       .error (.valueErrorNdim "k"))
    ∧ Event.removeParamFile "/p" ∉
        (SLiMModel.run ⟨0, ⟨0, "", ""⟩, "/p", true⟩ ⟨"/m", none, none⟩
          (some (.int 5)) (some [("k", .arr (.dHi 0 [.int 1, .int 2]))]) true).2.1 :=
  ⟨rfl, by decide⟩

/-- C10: seed coercion is Python's `int()`: whenever `int(seed)` succeeds the
run proceeds with that value — a float like 1.7 truncates toward zero to 1, a
boolean becomes 0 or 1 — and only values where `int()` raises (such as the
non-numeric string "a") produce the `ValueError`. -/
theorem run_seed_int_coercion :
    (∀ (env : Env) (h : Handle) (s : Scalar) (k : Int)
        (cs : Option (List (String × PyVal))) (check : Bool),
        pyInt s = some k →
        SLiMModel.run env h (some s) cs check =
          runWithSeed env h k (cs.getD []) check)
    ∧ pyInt (.float ⟨false, 1, [7]⟩) = some 1
    ∧ pyInt (.bool true) = some 1
    ∧ pyInt (.bool false) = some 0
    ∧ pyInt (.str "a") = none
    ∧ (SLiMModel.run ⟨0, ⟨0, "", ""⟩, "/p", true⟩ ⟨"/m", none, none⟩
        (some (.float ⟨false, 1, [7]⟩)) none true).1.lastSeed = some 1 := by
  refine ⟨?_, rfl, rfl, rfl, by decide, rfl⟩
  intro env h s k cs check hk
  show (match pyInt s with
    | none => (h, ([] : List Event), Except.error RunError.valueErrorSeed)
    | some n => runWithSeed env h n (cs.getD []) check) = _
  rw [hk]

/-- Witness for C10: the float seed 1.7 runs exactly as the integer seed 1. -/
theorem run_seed_int_coercion_witness :
    SLiMModel.run ⟨0, ⟨0, "", ""⟩, "/p", true⟩ ⟨"/m", none, none⟩
        (some (.float ⟨false, 1, [7]⟩)) none true =
      runWithSeed ⟨0, ⟨0, "", ""⟩, "/p", true⟩ ⟨"/m", none, none⟩ 1 [] true :=
  run_seed_int_coercion.1 ⟨0, ⟨0, "", ""⟩, "/p", true⟩ ⟨"/m", none, none⟩
    (.float ⟨false, 1, [7]⟩) 1 none true rfl

end Slimwrap
